import Mathlib

/-!
Verification development for `SfMLocalizer` (robust camera resection and pose
refinement), translated from
`src/aliceVision/sfm/pipeline/localization/SfMLocalizer.cpp`.

The translation is a shallow embedding: the control flow and the data flow of
`SfMLocalizer::Localize` and `SfMLocalizer::RefinePose` are rendered as Lean
functions over explicit state, while the external collaborators that live in
other translation units (the AC-RANSAC and LO-RANSAC robust estimators, the
strong-support validator, the `KRt_From_P` matrix decomposition, the bundle
adjustment backend, and the polymorphic camera classes) are opaque parameters
gathered in record types.  Machine doubles are modelled as rationals together
with an explicit infinity value (`EDouble`), since the only non-finite double
the code manipulates is `std::numeric_limits<double>::infinity()`.
-/

namespace AV

/-- A 2D point (an Eigen `Vec2` in the source). -/
abbrev Pt2 : Type := ℚ × ℚ

/-- A 3D point (an Eigen `Vec3` in the source). -/
abbrev Pt3 : Type := ℚ × ℚ × ℚ

/-- A 3x3 matrix (`Mat3`). -/
abbrev Mat3 : Type := Matrix (Fin 3) (Fin 3) ℚ

/-- A 3x4 projection matrix (`Mat34`). -/
abbrev Mat34 : Type := Matrix (Fin 3) (Fin 4) ℚ

/-- A 3-vector used for the translation of a decomposed projection matrix. -/
abbrev Vec3 : Type := Fin 3 → ℚ

/-- A C++ `double` as the code uses it: either a finite value or
`std::numeric_limits<double>::infinity()`. -/
inductive EDouble where
  | val (q : ℚ)
  | inf
  deriving DecidableEq

/-- Multiplication of modelled doubles; infinity absorbs (the code only ever
multiplies finite values after the LORANSAC safeguard, so the absorbing case is
never reached with a zero factor). -/
def EDouble.mul : EDouble → EDouble → EDouble
  | .inf, _ => .inf
  | .val _, .inf => .inf
  | .val a, .val b => .val (a * b)

/-- Modelled from the spec: the pinhole intrinsics capability interface used by
`Localize` (`camera::Pinhole` lives outside this translation unit).  It exposes
a validity flag, a distortion flag, the undistort-point capability
`get_ud_pixel`, and the calibration matrix `K`. -/
structure Pinhole where
  isValid : Bool
  have_disto : Bool
  get_ud_pixel : Pt2 → Pt2
  K : Mat3

/-- A camera pose: rotation and camera center, as built by
`geometry::Pose3(R, -R.transpose() * t)`. -/
structure Pose3 where
  rotation : Mat3
  center : Vec3

/-- Modelled from the spec: the robust-estimator choice
(`robustEstimation::ERobustEstimator`, declared outside this translation
unit).  The source handles `ACRANSAC` and `LORANSAC` and throws on any other
value, so the enumeration carries further members. -/
inductive ERobustEstimator where
  | ACRANSAC
  | RANSAC
  | LSMEDS
  | LORANSAC
  | MAXCONSENSUS
  deriving DecidableEq

/-- The caller-owned match data (`ImageLocalizerMatchData`): parallel 2D / 3D
correspondence arrays with per-point descriptor tags, the iteration budget, the
current error-threshold estimate, the resulting inlier index set and the
resulting projection matrix. -/
structure ImageLocalizerMatchData where
  pt2D : List Pt2
  pt3D : List Pt3
  vec_descType : List Nat
  vec_inliers : List Nat
  error_max : EDouble
  max_iteration : Nat
  projection_matrix : Mat34

/-- The observable outcome of one `Localize` call: the returned boolean, the
match data after the in-place mutations, and the pose output parameter after
the call. -/
structure LocalizeResult where
  success : Bool
  data : ImageLocalizerMatchData
  pose : Pose3

/-- Modelled from the spec: the six-point resection solver's minimum sample
count (`resection::kernel::SixPointResectionSolver::MINIMUM_SAMPLES`, declared
outside this translation unit). -/
def SixPointResectionSolver.MINIMUM_SAMPLES : Nat := 6

/-- Modelled from the spec: the three-point perspective solver's minimum sample
count (`resection::P3PSolver::MINIMUM_SAMPLES`, declared outside this
translation unit). -/
def P3PSolver.MINIMUM_SAMPLES : Nat := 3

/-- The external collaborators consumed by `Localize`, as opaque functions:
the uncalibrated AC-RANSAC run (points, image width and height, 3D points,
iteration budget, precision upper bound, returning inliers, fitted matrix and
estimated precision), the calibrated AC-RANSAC run, the LO-RANSAC run (with the
scorer threshold in place of an iteration budget), the `(0,0)` entry of the
LO-RANSAC kernel's second normalizer matrix, the strong-support validator, and
the `KRt_From_P` decomposition. -/
structure Externals where
  ACRANSAC_resection : List Pt2 → Nat → Nat → List Pt3 → Nat → EDouble → List Nat × Mat34 × EDouble
  ACRANSAC_resection_K : List Pt2 → List Pt3 → Mat3 → Nat → EDouble → List Nat × Mat34 × EDouble
  LO_RANSAC : List Pt2 → List Pt3 → Mat3 → EDouble → Mat34 × List Nat
  normalizer2_00 : List Pt2 → List Pt3 → Mat3 → ℚ
  hasStrongSupport : List Nat → List Nat → Nat → Bool
  KRt_From_P : Mat34 → Mat3 × Mat3 × Vec3

/-- The admissible upper bound residual error set up at the top of `Localize`:
infinity stays infinity, a finite threshold is squared (`Square(error_max)`). -/
def precisionOf : EDouble → EDouble
  | .inf => .inf
  | .val e => .val (e * e)

/-- The uncalibrated-path routing test: `pinholeCam == nullptr ||
!pinholeCam->isValid()`.  `none` stands for a null or non-pinhole intrinsics
pointer (the failed `dynamic_cast`). -/
def isUncalibrated : Option Pinhole → Bool
  | none => true
  | some cam => !cam.isValid

/-- The 2D points handed to the calibrated kernels: the per-point undistorted
copy `pt2Dundistorted` when the camera reports active distortion, the original
points otherwise. -/
def kernelPoints (cam : Pinhole) (pts : List Pt2) : List Pt2 :=
  if cam.have_disto then pts.map cam.get_ud_pixel else pts

/-- The tail shared by all estimation paths: run the strong-support check on
the inlier set; on success store the fitted matrix, decompose it with
`KRt_From_P` and build `Pose3(R, -R.transpose() * t)`; on failure leave the
data and the pose as they stand. -/
def finishResection (ext : Externals) (P : Mat34) (minimumSamples : Nat)
    (data : ImageLocalizerMatchData) (pose : Pose3) : LocalizeResult :=
  if ext.hasStrongSupport data.vec_inliers data.vec_descType minimumSamples then
    { success := true
      data := { data with projection_matrix := P }
      pose := Pose3.mk (ext.KRt_From_P P).2.1
        (-(Matrix.mulVec (Matrix.transpose (ext.KRt_From_P P).2.1) (ext.KRt_From_P P).2.2)) }
  else
    { success := false, data := data, pose := pose }

/-- The classic (uncalibrated) resection path: fit the entire `P` matrix with
the six-point solver under AC-RANSAC and store the estimated precision
(`ACRansacOut.first`) back into `error_max`. -/
def localizeUncalibrated (ext : Externals) (imageSize : Nat × Nat)
    (d0 : ImageLocalizerMatchData) (pose : Pose3) : LocalizeResult :=
  let out := ext.ACRANSAC_resection d0.pt2D imageSize.1 imageSize.2 d0.pt3D
    d0.max_iteration (precisionOf d0.error_max)
  finishResection ext out.2.1 SixPointResectionSolver.MINIMUM_SAMPLES
    { d0 with vec_inliers := out.1, error_max := out.2.2 } pose

/-- The calibrated AC-RANSAC path: fit `[R|t]` with the P3P solver through the
calibrated kernel and store the estimated precision back into `error_max`. -/
def localizeCalibratedAC (ext : Externals) (cam : Pinhole) (kpts : List Pt2)
    (d0 : ImageLocalizerMatchData) (pose : Pose3) : LocalizeResult :=
  let out := ext.ACRANSAC_resection_K kpts d0.pt3D cam.K d0.max_iteration
    (precisionOf d0.error_max)
  finishResection ext out.2.1 P3PSolver.MINIMUM_SAMPLES
    { d0 with vec_inliers := out.1, error_max := out.2.2 } pose

/-- The LORANSAC safeguard: an unbounded caller threshold is replaced by the
default value `4.0` before anything else happens on that path. -/
def substituteLoransacDefault (d : ImageLocalizerMatchData) : ImageLocalizerMatchData :=
  if d.error_max = EDouble.inf then { d with error_max := EDouble.val 4 } else d

/-- The threshold handed to the `ScoreEvaluator`:
`error_max * error_max * (normalizer2(0,0) * normalizer2(0,0))`, computed after
the safeguard substitution. -/
def loransacThreshold (ext : Externals) (cam : Pinhole) (kpts : List Pt2)
    (d1 : ImageLocalizerMatchData) : EDouble :=
  let n00 := ext.normalizer2_00 kpts d1.pt3D cam.K
  (d1.error_max.mul d1.error_max).mul (EDouble.val (n00 * n00))

/-- The calibrated LO-RANSAC path: safeguard the threshold, build the scorer
threshold in the kernel's squared normalized units, run LO-RANSAC (which fills
the inlier set and returns the model), minimum sample size from the P3P
solver. -/
def localizeCalibratedLO (ext : Externals) (cam : Pinhole) (kpts : List Pt2)
    (d0 : ImageLocalizerMatchData) (pose : Pose3) : LocalizeResult :=
  let d1 := substituteLoransacDefault d0
  let out := ext.LO_RANSAC kpts d1.pt3D cam.K (loransacThreshold ext cam kpts d1)
  finishResection ext out.1 P3PSolver.MINIMUM_SAMPLES
    { d1 with vec_inliers := out.2 } pose

/-- `SfMLocalizer::Localize`: clear the inlier set, route on intrinsics
validity, undistort the 2D points on the calibrated path when needed, branch on
the estimator choice (throwing on anything but ACRANSAC and LORANSAC), and
finish with the strong-support check. -/
def Localize (imageSize : Nat × Nat) (optionalIntrinsics : Option Pinhole)
    (resectionData : ImageLocalizerMatchData) (pose : Pose3)
    (estimator : ERobustEstimator) (ext : Externals) : Except String LocalizeResult :=
  let d0 := { resectionData with vec_inliers := ([] : List Nat) }
  match optionalIntrinsics with
  | none => .ok (localizeUncalibrated ext imageSize d0 pose)
  | some pinholeCam =>
    if pinholeCam.isValid = false then
      .ok (localizeUncalibrated ext imageSize d0 pose)
    else
      let kpts := kernelPoints pinholeCam d0.pt2D
      match estimator with
      | .ACRANSAC => .ok (localizeCalibratedAC ext pinholeCam kpts d0 pose)
      | .LORANSAC => .ok (localizeCalibratedLO ext pinholeCam kpts d0 pose)
      | _ => .error "[SfMLocalizer::localize] Only ACRansac and LORansac are supported!"

/-- The minimum sample size of the solver the routing selects: six-point for
the uncalibrated path, P3P for both calibrated estimators. -/
def chosenMinSamples : Option Pinhole → Nat
  | none => SixPointResectionSolver.MINIMUM_SAMPLES
  | some cam =>
    if cam.isValid then P3PSolver.MINIMUM_SAMPLES else SixPointResectionSolver.MINIMUM_SAMPLES

/-- Modelled from the spec: the polymorphic intrinsics object handed to
`RefinePose` (`camera::IntrinsicBase`, declared outside this translation unit)
with its `clone` and `assign` capabilities.  `ptr` models object identity (the
heap address), `params` the mutable intrinsic parameters. -/
structure IntrinsicBase where
  ptr : Nat
  params : List ℚ

/-- `IntrinsicBase::clone`: allocate a fresh object carrying the same
parameters; the result is never the original pointer. -/
def IntrinsicBase.clone (o : IntrinsicBase) : IntrinsicBase :=
  { o with ptr := o.ptr + 1 }

/-- `IntrinsicBase::assign`: overwrite this object's parameters from another
object, keeping its identity. -/
def IntrinsicBase.assign (dst src : IntrinsicBase) : IntrinsicBase :=
  { dst with params := src.params }

/-- `UndefinedIndexT`, the sentinel feature id stored in each observation. -/
def UndefinedIndexT : Nat := 4294967295

/-- A view, as built by `View("", 0, 0, 0)`: view id, intrinsic id, pose id. -/
structure View where
  viewId : Nat
  intrinsicId : Nat
  poseId : Nat

/-- A single 2D observation of a landmark: the observed point and the feature
id. -/
structure Observation where
  x : Pt2
  id_feat : Nat

/-- A landmark: a 3D point and its observations keyed by view id. -/
structure Landmark where
  X : Pt3
  observations : List (Nat × Observation)

/-- The minimal `sfmData::SfMData` scene assembled by `RefinePose`: views,
poses and intrinsics keyed by id, and the landmark map (`structure` in the
source). -/
structure SfMData where
  views : List (Nat × View)
  poses : List (Nat × Pose3)
  intrinsics : List (Nat × IntrinsicBase)
  landmarks : List (Nat × Landmark)

/-- The `BA_Refine` option mask: `BA_REFINE_NONE` with optionally
`BA_REFINE_ROTATION | BA_REFINE_TRANSLATION` and `BA_REFINE_INTRINSICS_ALL`
or-ed in. -/
structure BARefineOptions where
  rotation : Bool
  translation : Bool
  intrinsicsAll : Bool

/-- The tiny scene `RefinePose` assembles: one view with id 0, the caller's
pose bound to that view's pose id, a clone of the caller's intrinsics under
id 0, and one landmark per inlier, each carrying the inlier's 3D point and a
single observation of its 2D point under view id 0. -/
def buildTinyScene (intrinsics : IntrinsicBase) (pose : Pose3)
    (matchingData : ImageLocalizerMatchData) : SfMData :=
  let view : View := { viewId := 0, intrinsicId := 0, poseId := 0 }
  let localIntrinsics := intrinsics.clone
  { views := [(0, view)]
    poses := [(view.poseId, pose)]
    intrinsics := [(0, localIntrinsics)]
    landmarks := (List.range matchingData.vec_inliers.length).map (fun i =>
      let idx := matchingData.vec_inliers.getD i 0
      (i, { X := matchingData.pt3D.getD idx (0, 0, 0)
            observations :=
              [(view.viewId, { x := matchingData.pt2D.getD idx (0, 0)
                               id_feat := UndefinedIndexT })] })) }

/-- `SfMLocalizer::RefinePose`: build the tiny scene, assemble the refinement
mask, run the external bundle adjustment (which returns its status and the
scene it mutated in place); on failure return false leaving the pose and the
intrinsics as they were; on success read the refined pose back from the scene
and, when intrinsic refinement was requested, assign the refined parameters
onto the caller's intrinsics object. -/
def RefinePose (ba : SfMData → BARefineOptions → Bool × SfMData)
    (intrinsics : IntrinsicBase) (pose : Pose3)
    (matchingData : ImageLocalizerMatchData)
    (refinePoseFlag refineIntrinsic : Bool) : Bool × Pose3 × IntrinsicBase :=
  let tinyScene := buildTinyScene intrinsics pose matchingData
  let refineOptions : BARefineOptions :=
    { rotation := refinePoseFlag, translation := refinePoseFlag
      intrinsicsAll := refineIntrinsic }
  let out := ba tinyScene refineOptions
  if out.1 = false then (false, pose, intrinsics)
  else
    let poseOut := (List.lookup 0 out.2.poses).getD pose
    let intrinsicsOut :=
      if refineIntrinsic then
        intrinsics.assign ((List.lookup 0 out.2.intrinsics).getD intrinsics.clone)
      else intrinsics
    (true, poseOut, intrinsicsOut)

/-- A concrete valid pinhole camera without distortion, for evaluating the
development on closed inputs. -/
def camT : Pinhole :=
  { isValid := true, have_disto := false, get_ud_pixel := fun q => q, K := 1 }

/-- A concrete valid pinhole camera with active distortion. -/
def camDT : Pinhole :=
  { isValid := true, have_disto := true, get_ud_pixel := fun q => (q.1 + 1, q.2), K := 1 }

/-- Concrete match data with a finite error threshold. -/
def dT : ImageLocalizerMatchData :=
  { pt2D := [(1, 2), (3, 4), (5, 6)]
    pt3D := [(1, 0, 0), (0, 1, 0), (0, 0, 1)]
    vec_descType := [0, 0, 1]
    vec_inliers := [7]
    error_max := EDouble.val 2
    max_iteration := 100
    projection_matrix := 0 }

/-- Concrete match data whose error threshold is unbounded. -/
def dInfT : ImageLocalizerMatchData := { dT with error_max := EDouble.inf }

/-- A concrete input pose. -/
def pT : Pose3 := { rotation := 1, center := fun _ => 0 }

/-- Concrete external collaborators: estimators returning fixed inlier sets and
models, a strong-support check that only counts inliers against the minimum
sample size, and a trivial decomposition. -/
def extT : Externals :=
  { ACRANSAC_resection := fun _ _ _ _ _ _ => ([0, 1, 2], 0, EDouble.val 1)
    ACRANSAC_resection_K := fun _ _ _ _ _ => ([0, 1, 2], 0, EDouble.val 1)
    LO_RANSAC := fun _ _ _ _ => (0, [0, 1])
    normalizer2_00 := fun _ _ _ => 2
    hasStrongSupport := fun inl _ m => decide (m ≤ inl.length)
    KRt_From_P := fun _ => (1, 1, fun _ => 0) }

/-- The result of the concrete calibrated AC-RANSAC run. -/
def rACT : LocalizeResult :=
  localizeCalibratedAC extT camT
    (kernelPoints camT ({ dT with vec_inliers := ([] : List Nat) }).pt2D)
    { dT with vec_inliers := ([] : List Nat) } pT

/-- A concrete caller-owned intrinsics object for the refinement fixtures. -/
def intrT : IntrinsicBase := { ptr := 5, params := [1, 2] }

/-- A bundle adjustment stub that succeeds and rewrites the scene's pose and
intrinsics entries. -/
def baOkT : SfMData → BARefineOptions → Bool × SfMData :=
  fun s _ => (true, { s with poses := [(0, pT)], intrinsics := [(0, { ptr := 99, params := [3, 4] })] })

/-- A bundle adjustment stub that fails. -/
def baFailT : SfMData → BARefineOptions → Bool × SfMData :=
  fun s _ => (false, s)

lemma substituteLoransacDefault_pt2D (d : ImageLocalizerMatchData) :
    (substituteLoransacDefault d).pt2D = d.pt2D := by
  unfold substituteLoransacDefault; split <;> rfl

lemma substituteLoransacDefault_pt3D (d : ImageLocalizerMatchData) :
    (substituteLoransacDefault d).pt3D = d.pt3D := by
  unfold substituteLoransacDefault; split <;> rfl

lemma substituteLoransacDefault_vec_descType (d : ImageLocalizerMatchData) :
    (substituteLoransacDefault d).vec_descType = d.vec_descType := by
  unfold substituteLoransacDefault; split <;> rfl

lemma substituteLoransacDefault_vec_inliers (d : ImageLocalizerMatchData) :
    (substituteLoransacDefault d).vec_inliers = d.vec_inliers := by
  unfold substituteLoransacDefault; split <;> rfl

lemma finishResection_true (ext : Externals) (P : Mat34) (m : Nat)
    (d : ImageLocalizerMatchData) (p : Pose3)
    (h : ext.hasStrongSupport d.vec_inliers d.vec_descType m = true) :
    finishResection ext P m d p =
      { success := true
        data := { d with projection_matrix := P }
        pose := Pose3.mk (ext.KRt_From_P P).2.1
          (-(Matrix.mulVec (Matrix.transpose (ext.KRt_From_P P).2.1)
              (ext.KRt_From_P P).2.2)) } := by
  simp [finishResection, h]

lemma finishResection_false (ext : Externals) (P : Mat34) (m : Nat)
    (d : ImageLocalizerMatchData) (p : Pose3)
    (h : ext.hasStrongSupport d.vec_inliers d.vec_descType m = false) :
    finishResection ext P m d p = { success := false, data := d, pose := p } := by
  simp [finishResection, h]

lemma finishResection_success (ext : Externals) (P : Mat34) (m : Nat)
    (d : ImageLocalizerMatchData) (p : Pose3) :
    (finishResection ext P m d p).success =
      ext.hasStrongSupport d.vec_inliers d.vec_descType m := by
  cases h : ext.hasStrongSupport d.vec_inliers d.vec_descType m
  · rw [finishResection_false ext P m d p h]
  · rw [finishResection_true ext P m d p h]

lemma finishResection_vec_inliers (ext : Externals) (P : Mat34) (m : Nat)
    (d : ImageLocalizerMatchData) (p : Pose3) :
    (finishResection ext P m d p).data.vec_inliers = d.vec_inliers := by
  cases h : ext.hasStrongSupport d.vec_inliers d.vec_descType m
  · rw [finishResection_false ext P m d p h]
  · rw [finishResection_true ext P m d p h]

lemma finishResection_vec_descType (ext : Externals) (P : Mat34) (m : Nat)
    (d : ImageLocalizerMatchData) (p : Pose3) :
    (finishResection ext P m d p).data.vec_descType = d.vec_descType := by
  cases h : ext.hasStrongSupport d.vec_inliers d.vec_descType m
  · rw [finishResection_false ext P m d p h]
  · rw [finishResection_true ext P m d p h]

lemma finishResection_error_max (ext : Externals) (P : Mat34) (m : Nat)
    (d : ImageLocalizerMatchData) (p : Pose3) :
    (finishResection ext P m d p).data.error_max = d.error_max := by
  cases h : ext.hasStrongSupport d.vec_inliers d.vec_descType m
  · rw [finishResection_false ext P m d p h]
  · rw [finishResection_true ext P m d p h]

lemma finishResection_pt2D (ext : Externals) (P : Mat34) (m : Nat)
    (d : ImageLocalizerMatchData) (p : Pose3) :
    (finishResection ext P m d p).data.pt2D = d.pt2D := by
  cases h : ext.hasStrongSupport d.vec_inliers d.vec_descType m
  · rw [finishResection_false ext P m d p h]
  · rw [finishResection_true ext P m d p h]

lemma finishResection_pt3D (ext : Externals) (P : Mat34) (m : Nat)
    (d : ImageLocalizerMatchData) (p : Pose3) :
    (finishResection ext P m d p).data.pt3D = d.pt3D := by
  cases h : ext.hasStrongSupport d.vec_inliers d.vec_descType m
  · rw [finishResection_false ext P m d p h]
  · rw [finishResection_true ext P m d p h]

lemma Localize_uncalib (imageSize : Nat × Nat) (intr : Option Pinhole)
    (d : ImageLocalizerMatchData) (p : Pose3) (est : ERobustEstimator)
    (ext : Externals) (h : isUncalibrated intr = true) :
    Localize imageSize intr d p est ext =
      Except.ok (localizeUncalibrated ext imageSize
        { d with vec_inliers := ([] : List Nat) } p) := by
  cases intr with
  | none => rfl
  | some cam =>
    have hv : cam.isValid = false := by
      simpa [isUncalibrated] using h
    simp [Localize, hv]

lemma Localize_calibAC (imageSize : Nat × Nat) (cam : Pinhole)
    (d : ImageLocalizerMatchData) (p : Pose3) (ext : Externals)
    (hv : cam.isValid = true) :
    Localize imageSize (some cam) d p ERobustEstimator.ACRANSAC ext =
      Except.ok (localizeCalibratedAC ext cam (kernelPoints cam d.pt2D)
        { d with vec_inliers := ([] : List Nat) } p) := by
  simp [Localize, hv]

lemma Localize_calibLO (imageSize : Nat × Nat) (cam : Pinhole)
    (d : ImageLocalizerMatchData) (p : Pose3) (ext : Externals)
    (hv : cam.isValid = true) :
    Localize imageSize (some cam) d p ERobustEstimator.LORANSAC ext =
      Except.ok (localizeCalibratedLO ext cam (kernelPoints cam d.pt2D)
        { d with vec_inliers := ([] : List Nat) } p) := by
  simp [Localize, hv]

lemma localize_shape (imageSize : Nat × Nat) (intr : Option Pinhole)
    (d : ImageLocalizerMatchData) (p : Pose3) (est : ERobustEstimator)
    (ext : Externals) (r : LocalizeResult)
    (h : Localize imageSize intr d p est ext = Except.ok r) :
    ∃ P dmid, r = finishResection ext P (chosenMinSamples intr) dmid p ∧
      dmid.vec_descType = d.vec_descType ∧ dmid.pt2D = d.pt2D ∧
      dmid.pt3D = d.pt3D := by
  cases intr with
  | none =>
    rw [Localize_uncalib imageSize none d p est ext rfl] at h
    have hr : localizeUncalibrated ext imageSize
        { d with vec_inliers := ([] : List Nat) } p = r := Except.ok.inj h
    exact ⟨_, _, hr.symm, rfl, rfl, rfl⟩
  | some cam =>
    cases hv : cam.isValid with
    | false =>
      have hu : isUncalibrated (some cam) = true := by simp [isUncalibrated, hv]
      rw [Localize_uncalib imageSize (some cam) d p est ext hu] at h
      have hr : localizeUncalibrated ext imageSize
          { d with vec_inliers := ([] : List Nat) } p = r := Except.ok.inj h
      have hc : chosenMinSamples (some cam) = SixPointResectionSolver.MINIMUM_SAMPLES := by
        simp [chosenMinSamples, hv]
      rw [hc]
      exact ⟨_, _, hr.symm, rfl, rfl, rfl⟩
    | true =>
      have hc : chosenMinSamples (some cam) = P3PSolver.MINIMUM_SAMPLES := by
        simp [chosenMinSamples, hv]
      rw [hc]
      cases est with
      | ACRANSAC =>
        rw [Localize_calibAC imageSize cam d p ext hv] at h
        have hr : localizeCalibratedAC ext cam (kernelPoints cam d.pt2D)
            { d with vec_inliers := ([] : List Nat) } p = r := Except.ok.inj h
        exact ⟨_, _, hr.symm, rfl, rfl, rfl⟩
      | LORANSAC =>
        rw [Localize_calibLO imageSize cam d p ext hv] at h
        have hr : localizeCalibratedLO ext cam (kernelPoints cam d.pt2D)
            { d with vec_inliers := ([] : List Nat) } p = r := Except.ok.inj h
        exact ⟨_, _, hr.symm,
          substituteLoransacDefault_vec_descType { d with vec_inliers := ([] : List Nat) },
          substituteLoransacDefault_pt2D { d with vec_inliers := ([] : List Nat) },
          substituteLoransacDefault_pt3D { d with vec_inliers := ([] : List Nat) }⟩
      | RANSAC => simp [Localize, hv] at h
      | LSMEDS => simp [Localize, hv] at h
      | MAXCONSENSUS => simp [Localize, hv] at h

/-- C1: `Localize` returns true exactly when the strong-support check on the
resulting inlier set — with the caller's descriptor tags and the chosen
solver's minimum sample size — passes, and whenever it returns false the
caller's pose argument is left unmodified. -/
theorem C1_localize_strong_support (imageSize : Nat × Nat) (intr : Option Pinhole)
    (d : ImageLocalizerMatchData) (p : Pose3) (est : ERobustEstimator)
    (ext : Externals) (r : LocalizeResult)
    (h : Localize imageSize intr d p est ext = Except.ok r) :
    r.success = ext.hasStrongSupport r.data.vec_inliers d.vec_descType (chosenMinSamples intr)
    ∧ (r.success = false → r.pose = p) := by
  obtain ⟨P, dmid, hr, hdesc, _, _⟩ := localize_shape imageSize intr d p est ext r h
  subst hr
  constructor
  · rw [finishResection_success, finishResection_vec_inliers, hdesc]
  · intro hf
    rw [finishResection_success] at hf
    rw [finishResection_false ext P _ dmid p hf]

/-- C1 witness: the theorem evaluated on a concrete calibrated AC-RANSAC
call. -/
theorem C1_witness :
    Localize (10, 10) (some camT) dT pT ERobustEstimator.ACRANSAC extT = Except.ok rACT
    ∧ (rACT.success = extT.hasStrongSupport rACT.data.vec_inliers dT.vec_descType
        (chosenMinSamples (some camT))
      ∧ (rACT.success = false → rACT.pose = pT)) :=
  ⟨rfl, C1_localize_strong_support (10, 10) (some camT) dT pT
    ERobustEstimator.ACRANSAC extT rACT rfl⟩

/-- C2 counterexample: with intrinsics absent, an estimator choice other than
ACRANSAC and LORANSAC does not abort — the uncalibrated path runs and the call
returns normally. -/
theorem C2_counterexample :
    Localize (10, 10) none dT pT ERobustEstimator.LSMEDS extT =
      Except.ok (localizeUncalibrated extT (10, 10)
        { dT with vec_inliers := ([] : List Nat) } pT) := rfl

/-- C2 (amended): with present and valid intrinsics, any estimator choice
other than ACRANSAC and LORANSAC throws immediately; with absent or invalid
intrinsics no throw occurs — the uncalibrated path runs regardless of the
estimator choice. -/
theorem C2_unsupported_estimator_throws (imageSize : Nat × Nat) (cam : Pinhole)
    (d : ImageLocalizerMatchData) (p : Pose3) (est : ERobustEstimator)
    (ext : Externals) (hv : cam.isValid = true)
    (h1 : est ≠ ERobustEstimator.ACRANSAC) (h2 : est ≠ ERobustEstimator.LORANSAC) :
    Localize imageSize (some cam) d p est ext =
      Except.error "[SfMLocalizer::localize] Only ACRansac and LORansac are supported!"
    ∧ ∀ (intr : Option Pinhole) (d2 : ImageLocalizerMatchData) (p2 : Pose3)
        (e2 : ERobustEstimator), isUncalibrated intr = true →
        Localize imageSize intr d2 p2 e2 ext =
          Except.ok (localizeUncalibrated ext imageSize
            { d2 with vec_inliers := ([] : List Nat) } p2) := by
  constructor
  · cases est <;> simp_all [Localize, hv]
  · exact fun intr d2 p2 e2 hu => Localize_uncalib imageSize intr d2 p2 e2 ext hu

/-- C2 witness: the amended theorem evaluated on a concrete valid camera and
the plain RANSAC choice. -/
theorem C2_witness :
    camT.isValid = true
    ∧ Localize (10, 10) (some camT) dT pT ERobustEstimator.RANSAC extT =
        Except.error "[SfMLocalizer::localize] Only ACRansac and LORansac are supported!" :=
  ⟨rfl, (C2_unsupported_estimator_throws (10, 10) camT dT pT
    ERobustEstimator.RANSAC extT rfl (by decide) (by decide)).1⟩

/-- C7: whenever the strong-support check passes, the fitted 3x4 matrix is
stored into the match data's projection matrix, decomposed by `KRt_From_P`
into (K, R, t), and the pose is set to rotation R with center -Rᵀ·t; in
particular every successful `Localize` result relates its stored projection
matrix and its pose this way. -/
theorem C7_pose_from_decomposition :
    (∀ (ext : Externals) (P : Mat34) (m : Nat) (d : ImageLocalizerMatchData) (p : Pose3),
      ext.hasStrongSupport d.vec_inliers d.vec_descType m = true →
      finishResection ext P m d p =
        { success := true
          data := { d with projection_matrix := P }
          pose := Pose3.mk (ext.KRt_From_P P).2.1
            (-(Matrix.mulVec (Matrix.transpose (ext.KRt_From_P P).2.1)
                (ext.KRt_From_P P).2.2)) })
    ∧ ∀ (imageSize : Nat × Nat) (intr : Option Pinhole) (d : ImageLocalizerMatchData)
        (p : Pose3) (est : ERobustEstimator) (ext : Externals) (r : LocalizeResult),
        Localize imageSize intr d p est ext = Except.ok r → r.success = true →
        r.pose = Pose3.mk (ext.KRt_From_P r.data.projection_matrix).2.1
          (-(Matrix.mulVec (Matrix.transpose (ext.KRt_From_P r.data.projection_matrix).2.1)
              (ext.KRt_From_P r.data.projection_matrix).2.2)) := by
  constructor
  · exact fun ext P m d p h => finishResection_true ext P m d p h
  · intro imageSize intr d p est ext r h hs
    obtain ⟨P, dmid, hr, _, _, _⟩ := localize_shape imageSize intr d p est ext r h
    subst hr
    rw [finishResection_success] at hs
    rw [finishResection_true ext P _ dmid p hs]

/-- C7 witness: the successful concrete calibrated AC-RANSAC run satisfies the
pose/decomposition relation. -/
theorem C7_witness :
    rACT.success = true
    ∧ rACT.pose = Pose3.mk (extT.KRt_From_P rACT.data.projection_matrix).2.1
        (-(Matrix.mulVec (Matrix.transpose (extT.KRt_From_P rACT.data.projection_matrix).2.1)
            (extT.KRt_From_P rACT.data.projection_matrix).2.2)) :=
  ⟨rfl, C7_pose_from_decomposition.2 (10, 10) (some camT) dT pT
    ERobustEstimator.ACRANSAC extT rACT rfl rfl⟩

/-- C3: on the calibrated LO-RANSAC path, an unbounded caller threshold is
replaced by the finite default 4.0 (a finite threshold is kept as is); the
call reduces to LO-RANSAC applied at the scorer threshold built from the
substituted value, and the substituted value is also the final threshold
reported in the match data. -/
theorem C3_loransac_default_substitution (imageSize : Nat × Nat) (cam : Pinhole)
    (d : ImageLocalizerMatchData) (p : Pose3) (ext : Externals)
    (hv : cam.isValid = true) :
    (d.error_max = EDouble.inf →
      (substituteLoransacDefault { d with vec_inliers := ([] : List Nat) }).error_max =
        EDouble.val 4)
    ∧ (∀ e : ℚ, d.error_max = EDouble.val e →
      (substituteLoransacDefault { d with vec_inliers := ([] : List Nat) }).error_max =
        EDouble.val e)
    ∧ Localize imageSize (some cam) d p ERobustEstimator.LORANSAC ext =
        Except.ok (finishResection ext
          (ext.LO_RANSAC (kernelPoints cam d.pt2D) d.pt3D cam.K
            (loransacThreshold ext cam (kernelPoints cam d.pt2D)
              (substituteLoransacDefault { d with vec_inliers := ([] : List Nat) }))).1
          P3PSolver.MINIMUM_SAMPLES
          { substituteLoransacDefault { d with vec_inliers := ([] : List Nat) } with
              vec_inliers := (ext.LO_RANSAC (kernelPoints cam d.pt2D) d.pt3D cam.K
                (loransacThreshold ext cam (kernelPoints cam d.pt2D)
                  (substituteLoransacDefault { d with vec_inliers := ([] : List Nat) }))).2 } p)
    ∧ (∀ r : LocalizeResult,
        Localize imageSize (some cam) d p ERobustEstimator.LORANSAC ext = Except.ok r →
        r.data.error_max =
          (substituteLoransacDefault { d with vec_inliers := ([] : List Nat) }).error_max) := by
  refine ⟨?_, ?_, ?_, ?_⟩
  · intro h
    simp [substituteLoransacDefault, h]
  · intro e he
    simp [substituteLoransacDefault, he]
  · rw [Localize_calibLO imageSize cam d p ext hv]
    simp only [localizeCalibratedLO]
    rw [substituteLoransacDefault_pt3D]
  · intro r hr
    rw [Localize_calibLO imageSize cam d p ext hv] at hr
    have h2 : localizeCalibratedLO ext cam (kernelPoints cam d.pt2D)
        { d with vec_inliers := ([] : List Nat) } p = r := Except.ok.inj hr
    subst h2
    exact finishResection_error_max ext _ _ _ p

/-- C3 witness: on concrete data with an unbounded threshold the default 4.0
is substituted. -/
theorem C3_witness :
    camT.isValid = true
    ∧ (substituteLoransacDefault { dInfT with vec_inliers := ([] : List Nat) }).error_max =
        EDouble.val 4 :=
  ⟨rfl, (C3_loransac_default_substitution (10, 10) camT dInfT pT extT rfl).1 rfl⟩

/-- C4: with absent intrinsics the uncalibrated path runs for every estimator
choice, fitting the full 3x4 matrix with the six-point solver (minimum sample
size 6) under AC-RANSAC and unconditionally overwriting the match data's error
threshold with the estimated precision; the calibrated AC-RANSAC path (P3P,
minimum sample size 3) stores its estimated precision back the same way. -/
theorem C4_adaptive_threshold_paths :
    SixPointResectionSolver.MINIMUM_SAMPLES = 6
    ∧ P3PSolver.MINIMUM_SAMPLES = 3
    ∧ (∀ (imageSize : Nat × Nat) (intr : Option Pinhole) (d : ImageLocalizerMatchData)
        (p : Pose3) (est : ERobustEstimator) (ext : Externals),
        isUncalibrated intr = true →
        Localize imageSize intr d p est ext =
          Except.ok (localizeUncalibrated ext imageSize
            { d with vec_inliers := ([] : List Nat) } p))
    ∧ (∀ (ext : Externals) (imageSize : Nat × Nat) (d0 : ImageLocalizerMatchData) (p : Pose3),
        localizeUncalibrated ext imageSize d0 p =
          finishResection ext
            (ext.ACRANSAC_resection d0.pt2D imageSize.1 imageSize.2 d0.pt3D
              d0.max_iteration (precisionOf d0.error_max)).2.1
            SixPointResectionSolver.MINIMUM_SAMPLES
            { d0 with
                vec_inliers := (ext.ACRANSAC_resection d0.pt2D imageSize.1 imageSize.2 d0.pt3D
                  d0.max_iteration (precisionOf d0.error_max)).1
                error_max := (ext.ACRANSAC_resection d0.pt2D imageSize.1 imageSize.2 d0.pt3D
                  d0.max_iteration (precisionOf d0.error_max)).2.2 } p)
    ∧ (∀ (ext : Externals) (imageSize : Nat × Nat) (d0 : ImageLocalizerMatchData) (p : Pose3),
        (localizeUncalibrated ext imageSize d0 p).data.error_max =
          (ext.ACRANSAC_resection d0.pt2D imageSize.1 imageSize.2 d0.pt3D
            d0.max_iteration (precisionOf d0.error_max)).2.2)
    ∧ (∀ (ext : Externals) (cam : Pinhole) (kpts : List Pt2)
        (d0 : ImageLocalizerMatchData) (p : Pose3),
        (localizeCalibratedAC ext cam kpts d0 p).data.error_max =
          (ext.ACRANSAC_resection_K kpts d0.pt3D cam.K
            d0.max_iteration (precisionOf d0.error_max)).2.2) := by
  refine ⟨rfl, rfl, ?_, ?_, ?_, ?_⟩
  · exact fun imageSize intr d p est ext hu => Localize_uncalib imageSize intr d p est ext hu
  · intro ext imageSize d0 p
    rfl
  · intro ext imageSize d0 p
    exact finishResection_error_max ext _ _ _ p
  · intro ext cam kpts d0 p
    exact finishResection_error_max ext _ _ _ p

/-- C4 witness: the uncalibrated routing evaluated at a concrete absent
intrinsics input. -/
theorem C4_witness :
    isUncalibrated (none : Option Pinhole) = true
    ∧ Localize (10, 10) none dT pT ERobustEstimator.ACRANSAC extT =
        Except.ok (localizeUncalibrated extT (10, 10)
          { dT with vec_inliers := ([] : List Nat) } pT) :=
  ⟨rfl, C4_adaptive_threshold_paths.2.2.1 (10, 10) none dT pT
    ERobustEstimator.ACRANSAC extT rfl⟩

/-- C5: on the calibrated path, when distortion is active every 2D point
handed to the kernel (under either estimator) is the undistorted counterpart
of the original point, while the caller-owned correspondence arrays in the
match data stay unchanged; with no distortion the original points are used. -/
theorem C5_undistorted_local_copy (imageSize : Nat × Nat) (cam : Pinhole)
    (d : ImageLocalizerMatchData) (p : Pose3) (ext : Externals)
    (hv : cam.isValid = true) :
    (cam.have_disto = true →
      Localize imageSize (some cam) d p ERobustEstimator.ACRANSAC ext =
        Except.ok (localizeCalibratedAC ext cam (d.pt2D.map cam.get_ud_pixel)
          { d with vec_inliers := ([] : List Nat) } p)
      ∧ Localize imageSize (some cam) d p ERobustEstimator.LORANSAC ext =
        Except.ok (localizeCalibratedLO ext cam (d.pt2D.map cam.get_ud_pixel)
          { d with vec_inliers := ([] : List Nat) } p))
    ∧ (cam.have_disto = false →
      Localize imageSize (some cam) d p ERobustEstimator.ACRANSAC ext =
        Except.ok (localizeCalibratedAC ext cam d.pt2D
          { d with vec_inliers := ([] : List Nat) } p)
      ∧ Localize imageSize (some cam) d p ERobustEstimator.LORANSAC ext =
        Except.ok (localizeCalibratedLO ext cam d.pt2D
          { d with vec_inliers := ([] : List Nat) } p))
    ∧ (∀ (est : ERobustEstimator) (r : LocalizeResult),
        Localize imageSize (some cam) d p est ext = Except.ok r →
        r.data.pt2D = d.pt2D ∧ r.data.pt3D = d.pt3D) := by
  refine ⟨?_, ?_, ?_⟩
  · intro hd
    constructor
    · rw [Localize_calibAC imageSize cam d p ext hv]
      simp [kernelPoints, hd]
    · rw [Localize_calibLO imageSize cam d p ext hv]
      simp [kernelPoints, hd]
  · intro hd
    constructor
    · rw [Localize_calibAC imageSize cam d p ext hv]
      simp [kernelPoints, hd]
    · rw [Localize_calibLO imageSize cam d p ext hv]
      simp [kernelPoints, hd]
  · intro est r hr
    obtain ⟨P, dmid, hrr, _, hp2, hp3⟩ := localize_shape imageSize (some cam) d p est ext r hr
    subst hrr
    rw [finishResection_pt2D, finishResection_pt3D]
    exact ⟨hp2, hp3⟩

/-- C5 witness: on a concrete distorted camera the AC-RANSAC call receives the
undistorted copy of the points. -/
theorem C5_witness :
    camDT.isValid = true ∧ camDT.have_disto = true
    ∧ Localize (10, 10) (some camDT) dT pT ERobustEstimator.ACRANSAC extT =
        Except.ok (localizeCalibratedAC extT camDT (dT.pt2D.map camDT.get_ud_pixel)
          { dT with vec_inliers := ([] : List Nat) } pT) :=
  ⟨rfl, rfl, ((C5_undistorted_local_copy (10, 10) camDT dT pT extT rfl).1 rfl).1⟩

/-- C6: the LO-RANSAC scorer threshold is the match data's error threshold
squared times the square of the kernel's normalization scale (the (0,0) entry
of `normalizer2`), and the LO path applies LO-RANSAC at exactly that
threshold. -/
theorem C6_scorer_threshold (ext : Externals) (cam : Pinhole) (kpts : List Pt2)
    (d1 : ImageLocalizerMatchData) (e : ℚ) (h : d1.error_max = EDouble.val e) :
    loransacThreshold ext cam kpts d1 =
      EDouble.val ((e * e) *
        (ext.normalizer2_00 kpts d1.pt3D cam.K * ext.normalizer2_00 kpts d1.pt3D cam.K))
    ∧ ∀ (d0 : ImageLocalizerMatchData) (p : Pose3),
        localizeCalibratedLO ext cam kpts d0 p =
          finishResection ext
            (ext.LO_RANSAC kpts (substituteLoransacDefault d0).pt3D cam.K
              (loransacThreshold ext cam kpts (substituteLoransacDefault d0))).1
            P3PSolver.MINIMUM_SAMPLES
            { substituteLoransacDefault d0 with
                vec_inliers := (ext.LO_RANSAC kpts (substituteLoransacDefault d0).pt3D cam.K
                  (loransacThreshold ext cam kpts (substituteLoransacDefault d0))).2 } p := by
  constructor
  · simp [loransacThreshold, EDouble.mul, h]
  · intro d0 p
    rfl

/-- C6 witness: the threshold formula evaluated on concrete data with error
threshold 2 and normalization scale 2. -/
theorem C6_witness :
    dT.error_max = EDouble.val 2
    ∧ loransacThreshold extT camT dT.pt2D dT =
        EDouble.val ((2 * 2) *
          (extT.normalizer2_00 dT.pt2D dT.pt3D camT.K *
            extT.normalizer2_00 dT.pt2D dT.pt3D camT.K)) :=
  ⟨rfl, (C6_scorer_threshold extT camT dT.pt2D dT 2 rfl).1⟩

/-- C8: the tiny scene built by `RefinePose` holds exactly one view with id 0,
one pose bound to that view, one intrinsics entry that is a clone of the
caller's object (same parameters, never the caller's pointer), and exactly one
landmark per inlier index, each landmark carrying a single observation that
references view 0. -/
theorem C8_tiny_scene_invariants (intrinsics : IntrinsicBase) (pose : Pose3)
    (md : ImageLocalizerMatchData) :
    (buildTinyScene intrinsics pose md).views =
      [(0, { viewId := 0, intrinsicId := 0, poseId := 0 })]
    ∧ (buildTinyScene intrinsics pose md).poses = [(0, pose)]
    ∧ (buildTinyScene intrinsics pose md).intrinsics = [(0, intrinsics.clone)]
    ∧ intrinsics.clone.params = intrinsics.params
    ∧ intrinsics.clone.ptr ≠ intrinsics.ptr
    ∧ (buildTinyScene intrinsics pose md).landmarks.length = md.vec_inliers.length
    ∧ ∀ l ∈ (buildTinyScene intrinsics pose md).landmarks,
        ∃ obs : Observation, l.2.observations = [(0, obs)] := by
  refine ⟨rfl, rfl, rfl, rfl, ?_, ?_, ?_⟩
  · simp [IntrinsicBase.clone]
  · simp [buildTinyScene]
  · intro l hl
    simp only [buildTinyScene, List.mem_map, List.mem_range] at hl
    obtain ⟨i, _, rfl⟩ := hl
    exact ⟨_, rfl⟩

/-- C8 witness: the invariants evaluated on a concrete scene with one
inlier. -/
theorem C8_witness :
    (buildTinyScene intrT pT dT).landmarks.length = dT.vec_inliers.length
    ∧ (buildTinyScene intrT pT dT).intrinsics = [(0, intrT.clone)]
    ∧ intrT.clone.ptr ≠ intrT.ptr :=
  ⟨(C8_tiny_scene_invariants intrT pT dT).2.2.2.2.2.1,
   (C8_tiny_scene_invariants intrT pT dT).2.2.1,
   (C8_tiny_scene_invariants intrT pT dT).2.2.2.2.1⟩

/-- C9: `RefinePose` keeps the caller's intrinsics object identity in all
cases; with `refineIntrinsic = false` the object is entirely unchanged, as it
is whenever the refiner fails; only with `refineIntrinsic = true` and refiner
success are the refined parameters assigned onto the caller's object via its
assign capability. -/
theorem C9_refine_intrinsics_mutation (ba : SfMData → BARefineOptions → Bool × SfMData)
    (intrinsics : IntrinsicBase) (pose : Pose3) (md : ImageLocalizerMatchData)
    (rp : Bool) :
    (∀ ri : Bool, (RefinePose ba intrinsics pose md rp ri).2.2.ptr = intrinsics.ptr)
    ∧ (RefinePose ba intrinsics pose md rp false).2.2 = intrinsics
    ∧ (∀ ri : Bool, (ba (buildTinyScene intrinsics pose md)
          { rotation := rp, translation := rp, intrinsicsAll := ri }).1 = false →
        (RefinePose ba intrinsics pose md rp ri).2.2 = intrinsics)
    ∧ ((ba (buildTinyScene intrinsics pose md)
          { rotation := rp, translation := rp, intrinsicsAll := true }).1 = true →
        (RefinePose ba intrinsics pose md rp true).2.2 =
          intrinsics.assign ((List.lookup 0 (ba (buildTinyScene intrinsics pose md)
            { rotation := rp, translation := rp, intrinsicsAll := true }).2.intrinsics).getD
              intrinsics.clone)) := by
  refine ⟨?_, ?_, ?_, ?_⟩
  · intro ri
    simp only [RefinePose]
    cases hba : (ba (buildTinyScene intrinsics pose md)
        { rotation := rp, translation := rp, intrinsicsAll := ri }).1
    · simp [hba]
    · cases ri <;> simp [hba, IntrinsicBase.assign]
  · simp only [RefinePose]
    cases hba : (ba (buildTinyScene intrinsics pose md)
        { rotation := rp, translation := rp, intrinsicsAll := false }).1
    · simp [hba]
    · simp [hba]
  · intro ri hba
    simp [RefinePose, hba]
  · intro hba
    simp [RefinePose, hba]

/-- C9 witness: a successful refinement with `refineIntrinsic = true` assigns
the refined parameters back onto the caller's object. -/
theorem C9_witness :
    (baOkT (buildTinyScene intrT pT dT)
        { rotation := true, translation := true, intrinsicsAll := true }).1 = true
    ∧ (RefinePose baOkT intrT pT dT true true).2.2 =
        intrT.assign ((List.lookup 0 (baOkT (buildTinyScene intrT pT dT)
          { rotation := true, translation := true, intrinsicsAll := true }).2.intrinsics).getD
            intrT.clone) :=
  ⟨rfl, (C9_refine_intrinsics_mutation baOkT intrT pT dT true).2.2.2 rfl⟩

/-- C10: when the nonlinear refiner fails, `RefinePose` returns false and
leaves both the caller's pose and the caller's intrinsics object exactly
unchanged. -/
theorem C10_refine_failure_no_mutation (ba : SfMData → BARefineOptions → Bool × SfMData)
    (intrinsics : IntrinsicBase) (pose : Pose3) (md : ImageLocalizerMatchData)
    (rp ri : Bool)
    (h : (ba (buildTinyScene intrinsics pose md)
        { rotation := rp, translation := rp, intrinsicsAll := ri }).1 = false) :
    RefinePose ba intrinsics pose md rp ri = (false, pose, intrinsics) := by
  simp [RefinePose, h]

/-- C10 witness: the failure path evaluated on a concrete failing bundle
adjustment stub. -/
theorem C10_witness :
    (baFailT (buildTinyScene intrT pT dT)
        { rotation := true, translation := true, intrinsicsAll := false }).1 = false
    ∧ RefinePose baFailT intrT pT dT true false = (false, pT, intrT) :=
  ⟨rfl, C10_refine_failure_no_mutation baFailT intrT pT dT true false rfl⟩

end AV
